import Mathlib

/-!
Shallow embedding of the crawl/dedup/download pipeline of
`diabetes_auto_update.py`, together with theorems checking the
specification's claims about it.

Strings are modelled with Lean `String`.  The character-level helpers
below mirror the Python string operations used by the script: substring
containment (`sub in s`), `str.split` on a one-character separator,
`str.lower` (ASCII case folding, which is all the script's inputs use),
`str.startswith` / `str.endswith`.
-/

namespace DiabetesAutoUpdate

/-- Boolean test that the first list is a prefix of the second. -/
def listStartsWith : List Char → List Char → Bool
  | [], _ => true
  | _ :: _, [] => false
  | p :: ps, c :: cs => p == c && listStartsWith ps cs

/-- Boolean test that the first list occurs as a contiguous sublist of the
second; models Python `sub in s` on strings. -/
def listContainsSub (pat : List Char) : List Char → Bool
  | [] => listStartsWith pat []
  | c :: cs => listStartsWith pat (c :: cs) || listContainsSub pat cs

/-- Boolean test that the first list is a suffix of the second. -/
def listEndsWith (post l : List Char) : Bool :=
  listStartsWith post.reverse l.reverse

/-- Models Python `s.split(sep)` for a one-character separator: splits at
every occurrence, keeping empty pieces, and returns `[s]` when the
separator does not occur (in particular `[""]` on the empty string). -/
def splitOnChar (sep : Char) : List Char → List (List Char)
  | [] => [[]]
  | c :: cs =>
    match splitOnChar sep cs with
    | [] => if c == sep then [[], []] else [[c]]
    | r :: rs => if c == sep then [] :: r :: rs else (c :: r) :: rs

/-- Models Python `sub in s`. -/
def pyIn (sub s : String) : Bool :=
  listContainsSub sub.data s.data

/-- Models Python `s.lower()` (ASCII case folding). -/
def pyLower (s : String) : String :=
  String.mk (s.data.map Char.toLower)

/-- Models Python `s.split(sep)` for a one-character separator string. -/
def pySplit (sep : Char) (s : String) : List String :=
  (splitOnChar sep s.data).map String.mk

/-- Models Python `s.endswith(post)`. -/
def pyEndsWith (post s : String) : Bool :=
  listEndsWith post.data s.data

/-!
Model of the path component extracted by `urllib.parse.urlparse`, which
`safe_filename` uses.  Mirrors CPython's `urlsplit`: an optional scheme
(a leading run of letters/digits/`+`/`-`/`.` starting with a letter,
terminated by the first `:`) is removed; a netloc introduced by `//` is
removed up to the next `/`, `?` or `#`; the fragment (from the first `#`)
and the query (from the first `?`) are cut off; finally `urlparse` also
removes the params part (from a `;` inside the last path segment).
-/

/-- Characters Python allows inside a URL scheme. -/
def scheme_chars (c : Char) : Bool :=
  c.isAlpha || c.isDigit || c == '+' || c == '-' || c == '.'

/-- Removes a leading `scheme:` when the text before the first colon is a
valid non-empty scheme, as CPython's `urlsplit` does. -/
def dropSchemePart (cs : List Char) : List Char :=
  match cs.dropWhile (fun c => c != ':'), cs.takeWhile (fun c => c != ':') with
  | _ :: after, c :: pre =>
    if c.isAlpha && (c :: pre).all scheme_chars then after else cs
  | _, _ => cs

/-- Removes a leading `//netloc`: after the two slashes the netloc extends
to the first `/`, `?` or `#`. -/
def dropNetlocPart : List Char → List Char
  | '/' :: '/' :: rest => rest.dropWhile (fun c => c != '/' && c != '?' && c != '#')
  | cs => cs

/-- Cuts the string at the first `#` (fragment). -/
def dropFragmentPart (cs : List Char) : List Char :=
  cs.takeWhile (fun c => c != '#')

/-- Cuts the string at the first `?` (query). -/
def dropQueryPart (cs : List Char) : List Char :=
  cs.takeWhile (fun c => c != '?')

/-- Removes the params part: when a `;` occurs in the last `/`-separated
segment the segment is cut at that `;`, following `urlparse`'s
`_splitparams`. -/
def dropParamsPart (cs : List Char) : List Char :=
  if cs.contains ';' then
    if cs.contains '/' then
      let lastSeg := (cs.reverse.takeWhile (fun c => c != '/')).reverse
      let pre := cs.take (cs.length - lastSeg.length)
      if lastSeg.contains ';' then pre ++ lastSeg.takeWhile (fun c => c != ';')
      else cs
    else cs.takeWhile (fun c => c != ';')
  else cs

/-- Path component of `urllib.parse.urlparse(url)`. -/
def urlparse_path (url : String) : String :=
  String.mk
    (dropParamsPart (dropQueryPart (dropFragmentPart
      (dropNetlocPart (dropSchemePart url.data)))))

/-!
`safe_filename` (lines 97-103 of the script):

```
def safe_filename(url: str) -> str:
    parsed = urlparse(url)
    name = parsed.path.split("/")[-1] or "file.pdf"
    name = name.split("?")[0]
    if not name.lower().endswith(".pdf"):
        name += ".pdf"
    return name
```
-/

/-- Translation of `safe_filename` from the source: last path segment of
the parsed URL, falling back to `"file.pdf"` when that segment is empty
(Python `or`), cut at a `?`, and forced to end in `".pdf"` unless it
already does case-insensitively. -/
def safe_filename (url : String) : String :=
  let name := (pySplit '/' (urlparse_path url)).getLastD ""
  let name := if name = "" then "file.pdf" else name
  let name := (pySplit '?' name).headD ""
  if !(pyEndsWith ".pdf" (pyLower name)) then name ++ ".pdf" else name

/-- Modelled from the claim's words, for the refinement comparison: the
computed filename is "the last segment of the URL's path, stripped of any
query string, with `.pdf` appended unless the name already ends in `.pdf`
case-insensitively" — with no fallback for an empty last segment. -/
def safe_filename_spec (url : String) : String :=
  let name := (pySplit '/' (urlparse_path url)).getLastD ""
  let name := (pySplit '?' name).headD ""
  if !(pyEndsWith ".pdf" (pyLower name)) then name ++ ".pdf" else name

/-- Last segment of the parsed URL path, before `safe_filename`'s
`or "file.pdf"` fallback. -/
def lastPathSegment (url : String) : String :=
  (pySplit '/' (urlparse_path url)).getLastD ""

/-!
`find_pdf_links` (lines 119-141).  A parsed page is a list of anchor
elements carrying an href and a visible text (the script iterates
`soup.find_all("a", href=True)`); a failed fetch gives `none` and yields
the empty set.  URL resolution (`urllib.parse.urljoin`) is taken as an
explicit function parameter `join`: the claims about extraction concern
which anchors are kept, not the internals of RFC 3986 resolution.
-/

/-- One anchor element of a parsed page: its `href` attribute and its
visible text (`a.get_text() or ""`). -/
structure Anchor where
  href : String
  text : String
deriving DecidableEq, Repr

/-- Loop body of `find_pdf_links`: the keyword filter (`continue` when
`require_diabetes_word` is set and `"diabet"` occurs in neither the
lowered href nor the lowered text), then the format filter (keep when
`".pdf"` occurs in the lowered href), inserting the href resolved against
the base URL. -/
def pdfStep (join : String → String → String) (base_url : String)
    (require_diabetes_word : Bool) (pdf_urls : Finset String) (a : Anchor) :
    Finset String :=
  if require_diabetes_word && !(pyIn "diabet" (pyLower a.href))
      && !(pyIn "diabet" (pyLower a.text)) then
    pdf_urls
  else if pyIn ".pdf" (pyLower a.href) then
    insert (join base_url a.href) pdf_urls
  else
    pdf_urls

/-- Translation of `find_pdf_links`: folds the loop body over the page's
anchors starting from the empty set; a page that failed to fetch/parse
(`none`) yields the empty set. -/
def find_pdf_links (soup : Option (List Anchor)) (base_url : String)
    (require_diabetes_word : Bool) (join : String → String → String) :
    Finset String :=
  match soup with
  | none => ∅
  | some anchors => anchors.foldl (pdfStep join base_url require_diabetes_word) ∅

/-- An anchor passes the loop's two filters: the format filter on the
lowered href, and — only when the keyword flag is set — the relevance
filter on the lowered href or lowered text. -/
def anchorKept (require_diabetes_word : Bool) (a : Anchor) : Prop :=
  pyIn ".pdf" (pyLower a.href) = true ∧
    (require_diabetes_word = true →
      (pyIn "diabet" (pyLower a.href) = true ∨ pyIn "diabet" (pyLower a.text) = true))

instance (require_diabetes_word : Bool) (a : Anchor) :
    Decidable (anchorKept require_diabetes_word a) := by
  unfold anchorKept
  infer_instance

/-!
The download/dedup engine and its state.  `PState` gathers every piece of
state `download_file` (lines 144-182) can touch: the global `seen_urls`
set and `new_downloads` list, the rows of `pdf_index.csv` (the
`download_date` wall-clock column is outside the embedding), the
downloaded files on disk (path ↦ bytes), the set of existing directories
(`os.makedirs`), plus two observation traces: the URLs passed to
`requests.get` and the messages passed to `log` (the debug-log file).
-/

/-- One `(source, filename, url)` record, used both for the in-run
`new_downloads` list and for `pdf_index.csv` rows. -/
structure DownloadRecord where
  source : String
  filename : String
  url : String
deriving DecidableEq, Repr

/-- Outcome of `requests.get(url)`: a response with a status code and a
body, or a raised transport exception. -/
inductive NetResult where
  | resp (status : Nat) (content : String)
  | raise (err : String)
deriving DecidableEq, Repr

/-- State touched by the pipeline. -/
structure PState where
  seen_urls : Finset String
  new_downloads : List DownloadRecord
  pdf_index : List DownloadRecord
  files : List (String × String)
  dirs : Finset String
  fetched : List String
  log : List String
deriving DecidableEq

/-- Models `os.makedirs(path, exist_ok=True)`: the directory now exists,
nothing else changes. -/
def ensure_dir (path : String) (st : PState) : PState :=
  { st with dirs := insert path st.dirs }

/-- Models `os.path.exists` on the modelled file map. -/
def fileExists (files : List (String × String)) (path : String) : Bool :=
  (files.lookup path).isSome

/-- Models `open(path, "wb").write(content)`: create or overwrite. -/
def fsWrite (files : List (String × String)) (path content : String) :
    List (String × String) :=
  (path, content) :: files.filter (fun e => e.1 ≠ path)

/-- Models `os.path.join(folder, name)` (POSIX rules). -/
def os_path_join (a b : String) : String :=
  if listStartsWith "/".data b.data then b
  else if a = "" || listEndsWith "/".data a.data then a ++ b
  else a ++ "/" ++ b

/-- Translation of `download_file` as a state transformer.  The network
is an oracle `net : url ↦ NetResult`.  Mirrors the source order:
`ensure_dir(folder)` first, then the seen-URL check, then the
file-exists adoption check, then the guarded fetch. -/
def download_file (net : String → NetResult) (url folder source : String)
    (st : PState) : PState :=
  let st1 := ensure_dir folder st
  let filename := safe_filename url
  let local_path := os_path_join folder filename
  if url ∈ st1.seen_urls then
    { st1 with log := st1.log ++ ["[SKIP] Already known URL: " ++ url] }
  else if fileExists st1.files local_path then
    { st1 with
      seen_urls := insert url st1.seen_urls,
      log := st1.log ++
        ["[SKIP] File exists but URL not tracked, marking as seen: " ++ local_path] }
  else
    match net url with
    | NetResult.resp status content =>
      if status = 200 then
        { st1 with
          seen_urls := insert url st1.seen_urls,
          new_downloads := st1.new_downloads ++ [⟨source, filename, url⟩],
          pdf_index := st1.pdf_index ++ [⟨source, filename, url⟩],
          files := fsWrite st1.files local_path content,
          fetched := st1.fetched ++ [url],
          log := st1.log ++ ["[DOWNLOAD] " ++ url, "[SAVED] " ++ local_path] }
      else
        { st1 with
          fetched := st1.fetched ++ [url],
          log := st1.log ++
            ["[DOWNLOAD] " ++ url,
             "[WARN] Status " ++ toString status ++ " for " ++ url] }
    | NetResult.raise err =>
      { st1 with
        fetched := st1.fetched ++ [url],
        log := st1.log ++
          ["[DOWNLOAD] " ++ url,
           "[ERROR] Download failed for " ++ url ++ ": " ++ err] }

/-- A fetch outcome the success branch rejects: a non-200 status or a
raised transport error. -/
def fetchFailsB : NetResult → Bool
  | NetResult.resp status _ => status != 200
  | NetResult.raise _ => true

/-- Message logged by the two failure branches of the guarded fetch. -/
def failMsg (r : NetResult) (url : String) : String :=
  match r with
  | NetResult.resp status _ => "[WARN] Status " ++ toString status ++ " for " ++ url
  | NetResult.raise err => "[ERROR] Download failed for " ++ url ++ ": " ++ err

/-- One candidate handed to the engine: the URL plus the folder and
source name of the scraper that found it. -/
structure Cand where
  url : String
  folder : String
  source : String

/-- Sequential engine invocations, one per candidate, as the scrapers'
download loops perform them. -/
def run_downloads (net : String → NetResult) (cands : List Cand)
    (st : PState) : PState :=
  cands.foldl (fun s c => download_file net c.url c.folder c.source s) st

/-- One process run over a fixed candidate list: a fresh process starts
with an empty in-run `new_downloads` list, then hands every candidate to
the engine. -/
def run_process (net : String → NetResult) (cands : List Cand)
    (st : PState) : PState :=
  run_downloads net cands { st with new_downloads := [] }

/-!
Persistent seen-state store, `load_seen_urls` / `save_seen_urls`
(lines 64-87).  The on-disk file is modelled by what the guarded block
can observe of it: absent; present but raising inside `open`/`json.load`
(unreadable file or invalid JSON text); or parsed by `json.load` to a
JSON payload which is then handed to `set(data)`.  Note that
`set(data)` itself raises only on a non-iterable payload: a JSON object
yields the set of its keys and a JSON string the set of its characters,
so a file that is valid JSON but not the documented array-of-URLs format
can still load "successfully".
-/

/-- Payload shapes `json.load` can hand to `set(data)`, as far as that
call can distinguish them: a JSON array of strings (the format
`save_seen_urls` writes), a JSON object seen through its key list, a
JSON string, or a non-iterable scalar (number, boolean, null) on which
`set` raises `TypeError` with the given message. -/
inductive JsonData where
  | arr (elems : List String)
  | obj (keys : List String)
  | str (s : String)
  | scalar (err : String)

/-- Models Python `set(data)` on a JSON payload: the elements of an
array, the keys of an object, the one-character strings of a string;
`none` when `set` raises on a non-iterable scalar. -/
def pySet : JsonData → Option (Finset String)
  | JsonData.arr elems => some elems.toFinset
  | JsonData.obj keys => some keys.toFinset
  | JsonData.str s => some (s.data.map (fun c => String.mk [c])).toFinset
  | JsonData.scalar _ => none

/-- The `TypeError` text carried by a non-iterable scalar payload. -/
def pySetErrMsg : JsonData → String
  | JsonData.scalar err => err
  | _ => ""

/-- Observable condition of `downloaded_pdfs.json` at load time. -/
inductive SeenFile where
  | absent
  | failure (err : String)
  | content (data : JsonData)

/-- Translation of `load_seen_urls`: returns the loaded set together
with the messages logged.  Absent file: empty set, info message.
`open`/`json.load` raising, or `set(data)` raising on a non-iterable
payload: empty set, warning.  `set(data)` succeeding: that set — whatever
the payload's shape — and an info message with the set's size.  Total —
the Python original never raises, every failure being caught inside the
function. -/
def load_seen_urls : SeenFile → Finset String × List String
  | SeenFile.absent => (∅, ["[INFO] No previous seen URL file, starting fresh"])
  | SeenFile.failure err => (∅, ["[WARN] Failed to load seen URLs: " ++ err])
  | SeenFile.content data =>
    match pySet data with
    | some seen =>
      (seen, ["[INFO] Loaded " ++ toString seen.card ++ " previously seen URLs"])
    | none => (∅, ["[WARN] Failed to load seen URLs: " ++ pySetErrMsg data])

/-- Translation of `save_seen_urls`'s serialization:
`sorted(list(seen_urls))`. -/
def save_seen_urls (seen : Finset String) : List String :=
  seen.sort (· ≤ ·)

/-- A log message the script emits at warning level. -/
def isWarnMsg (m : String) : Bool :=
  listStartsWith "[WARN]".data m.data

/-- Seen-state carried from one run to the next through a successful
save/load round trip: the process persists the set at exit and the next
process reloads it. -/
def reload_state (st : PState) : PState :=
  { st with seen_urls :=
      (load_seen_urls (SeenFile.content (JsonData.arr (save_seen_urls st.seen_urls)))).1 }

/-!
Email notification, `send_email_if_new` (lines 411-459).  Only the
decision structure is embedded: whether the function returns before any
SMTP work (empty `new_downloads`), returns because of missing
configuration, or reaches the SMTP send attempt.  Environment variables
are `Option String` (`none` = unset); Python truthiness makes the empty
string behave like an unset value in the `if not ...` test.
-/

/-- Process environment slots read by `send_email_if_new`. -/
structure EmailEnv where
  gmail_user : Option String
  gmail_app_password : Option String
  alert_email_to : Option String

/-- Python truthiness of an optional string: `None` and `""` are falsy. -/
def pyTruthy : Option String → Bool
  | none => false
  | some s => s ≠ ""

/-- Models `os.environ.get(key, default)`: the default is used only when
the key is unset. -/
def envGetD (v d : Option String) : Option String :=
  match v with
  | some s => some s
  | none => d

/-- How far `send_email_if_new` gets. -/
inductive EmailOutcome where
  | noNewFiles
  | missingConfig
  | sendAttempt (user recipient : String)
deriving DecidableEq, Repr

/-- Translation of `send_email_if_new`'s control flow: return at once
when `new_downloads` is empty; read `GMAIL_USER`, `GMAIL_APP_PASSWORD`
and `ALERT_EMAIL_TO` — the last defaulting to the value of `GMAIL_USER` —
and return without sending when any of the three resolved values is
falsy; otherwise attempt the SMTP send (itself guarded, so a transport
failure is logged, not raised). -/
def send_email_if_new (env : EmailEnv) (new_downloads : List DownloadRecord) :
    EmailOutcome :=
  if new_downloads.isEmpty then
    EmailOutcome.noNewFiles
  else
    let gmail_user := env.gmail_user
    let gmail_pass := env.gmail_app_password
    let alert_to := envGetD env.alert_email_to gmail_user
    if !(pyTruthy gmail_user) || !(pyTruthy gmail_pass) || !(pyTruthy alert_to) then
      EmailOutcome.missingConfig
    else
      EmailOutcome.sendAttempt ((gmail_user).getD "") ((alert_to).getD "")

/-!
Concrete fixtures used by the witness and counterexample theorems.
-/

/-- A state with nothing seen, downloaded or logged. -/
def emptyState : PState :=
  { seen_urls := ∅, new_downloads := [], pdf_index := [], files := [],
    dirs := ∅, fetched := [], log := [] }

/-- A network where every request yields HTTP 404. -/
def netFail404 : String → NetResult := fun _ => NetResult.resp 404 "not found"

/-- A network where every request yields HTTP 200. -/
def netOk200 : String → NetResult := fun _ => NetResult.resp 200 "PDF-BYTES"

/-- A state whose seen set already holds one URL. -/
def seenOneState : PState :=
  { emptyState with seen_urls := {"https://x.org/docs/report.pdf"} }

/-- A state owning one already-downloaded file and an empty seen set. -/
def fileState : PState :=
  { emptyState with files := [("guidelines/ADA/report.pdf", "OLDPDF")] }

/-!
Sanity checks that the embedding computes.
-/

example : urlparse_path "https://x.org/docs/report?v=2" = "/docs/report" := by decide
example : safe_filename "https://x.org/docs/report?v=2" = "report.pdf" := by decide
example : safe_filename "https://x.org/docs/report.PDF" = "report.PDF" := by decide
example : safe_filename "https://x.org/docs/" = "file.pdf" := by decide
example : safe_filename_spec "https://x.org/docs/" = ".pdf" := by decide

/-!
Branch equations for `download_file`, one per outcome of its decision
sequence, and the consequences used by the run-level theorems.
-/

theorem download_file_skip_seen (net : String → NetResult)
    (url folder source : String) (st : PState) (h : url ∈ st.seen_urls) :
    download_file net url folder source st =
      { st with dirs := insert folder st.dirs,
                log := st.log ++ ["[SKIP] Already known URL: " ++ url] } := by
  simp [download_file, ensure_dir, h]

theorem download_file_adopt (net : String → NetResult)
    (url folder source : String) (st : PState) (h1 : url ∉ st.seen_urls)
    (h2 : fileExists st.files (os_path_join folder (safe_filename url)) = true) :
    download_file net url folder source st =
      { st with dirs := insert folder st.dirs,
                seen_urls := insert url st.seen_urls,
                log := st.log ++
                  ["[SKIP] File exists but URL not tracked, marking as seen: " ++
                    os_path_join folder (safe_filename url)] } := by
  simp [download_file, ensure_dir, h1, h2]

theorem download_file_success (net : String → NetResult)
    (url folder source : String) (st : PState) (content : String)
    (h1 : url ∉ st.seen_urls)
    (h2 : fileExists st.files (os_path_join folder (safe_filename url)) = false)
    (h3 : net url = NetResult.resp 200 content) :
    download_file net url folder source st =
      { st with dirs := insert folder st.dirs,
                seen_urls := insert url st.seen_urls,
                new_downloads := st.new_downloads ++
                  [⟨source, safe_filename url, url⟩],
                pdf_index := st.pdf_index ++ [⟨source, safe_filename url, url⟩],
                files := fsWrite st.files
                  (os_path_join folder (safe_filename url)) content,
                fetched := st.fetched ++ [url],
                log := st.log ++
                  ["[DOWNLOAD] " ++ url,
                   "[SAVED] " ++ os_path_join folder (safe_filename url)] } := by
  simp [download_file, ensure_dir, h1, h2, h3]

theorem download_file_fail (net : String → NetResult)
    (url folder source : String) (st : PState) (h1 : url ∉ st.seen_urls)
    (h2 : fileExists st.files (os_path_join folder (safe_filename url)) = false)
    (h3 : fetchFailsB (net url) = true) :
    download_file net url folder source st =
      { st with dirs := insert folder st.dirs,
                fetched := st.fetched ++ [url],
                log := st.log ++
                  ["[DOWNLOAD] " ++ url, failMsg (net url) url] } := by
  cases hn : net url with
  | resp status content =>
    have hs : status ≠ 200 := by
      rw [hn] at h3
      simpa [fetchFailsB] using h3
    simp [download_file, ensure_dir, failMsg, h1, h2, hn, hs]
  | raise err =>
    simp [download_file, ensure_dir, failMsg, h1, h2, hn]

theorem download_file_seen_mono (net : String → NetResult)
    (url folder source : String) (st : PState) :
    st.seen_urls ⊆ (download_file net url folder source st).seen_urls := by
  by_cases h1 : url ∈ st.seen_urls
  · rw [download_file_skip_seen net url folder source st h1]
  · by_cases h2 : fileExists st.files (os_path_join folder (safe_filename url)) = true
    · rw [download_file_adopt net url folder source st h1 h2]
      exact Finset.subset_insert _ _
    · have h2' : fileExists st.files (os_path_join folder (safe_filename url)) = false := by
        simpa using h2
      cases hn : net url with
      | resp status content =>
        by_cases hs : status = 200
        · subst hs
          rw [download_file_success net url folder source st content h1 h2' hn]
          exact Finset.subset_insert _ _
        · rw [download_file_fail net url folder source st h1 h2'
            (by rw [hn]; simpa [fetchFailsB] using hs)]
      | raise err =>
        rw [download_file_fail net url folder source st h1 h2'
          (by rw [hn]; simp [fetchFailsB])]

theorem download_file_seen_or_fail (net : String → NetResult)
    (url folder source : String) (st : PState) :
    url ∈ (download_file net url folder source st).seen_urls ∨
      fetchFailsB (net url) = true := by
  by_cases h1 : url ∈ st.seen_urls
  · rw [download_file_skip_seen net url folder source st h1]
    exact Or.inl h1
  · by_cases h2 : fileExists st.files (os_path_join folder (safe_filename url)) = true
    · rw [download_file_adopt net url folder source st h1 h2]
      exact Or.inl (Finset.mem_insert_self _ _)
    · have h2' : fileExists st.files (os_path_join folder (safe_filename url)) = false := by
        simpa using h2
      cases hn : net url with
      | resp status content =>
        by_cases hs : status = 200
        · subst hs
          rw [download_file_success net url folder source st content h1 h2' hn]
          exact Or.inl (Finset.mem_insert_self _ _)
        · exact Or.inr (by simpa [fetchFailsB] using hs)
      | raise err =>
        exact Or.inr (by simp [fetchFailsB])

theorem download_file_quiet (net : String → NetResult)
    (url folder source : String) (st : PState)
    (h : url ∈ st.seen_urls ∨ fetchFailsB (net url) = true) :
    (download_file net url folder source st).pdf_index = st.pdf_index ∧
      (download_file net url folder source st).new_downloads = st.new_downloads := by
  by_cases h1 : url ∈ st.seen_urls
  · rw [download_file_skip_seen net url folder source st h1]
    exact ⟨rfl, rfl⟩
  · by_cases h2 : fileExists st.files (os_path_join folder (safe_filename url)) = true
    · rw [download_file_adopt net url folder source st h1 h2]
      exact ⟨rfl, rfl⟩
    · have h2' : fileExists st.files (os_path_join folder (safe_filename url)) = false := by
        simpa using h2
      have h3 : fetchFailsB (net url) = true := h.resolve_left h1
      rw [download_file_fail net url folder source st h1 h2' h3]
      exact ⟨rfl, rfl⟩

theorem run_downloads_seen_mono (net : String → NetResult) (cands : List Cand)
    (st : PState) : st.seen_urls ⊆ (run_downloads net cands st).seen_urls := by
  induction cands generalizing st with
  | nil => exact Finset.Subset.refl _
  | cons c cs ih =>
    exact Finset.Subset.trans
      (download_file_seen_mono net c.url c.folder c.source st)
      (ih (download_file net c.url c.folder c.source st))

theorem run_downloads_covers (net : String → NetResult) (cands : List Cand)
    (st : PState) :
    ∀ c ∈ cands, c.url ∈ (run_downloads net cands st).seen_urls ∨
      fetchFailsB (net c.url) = true := by
  induction cands generalizing st with
  | nil => intro c hc; cases hc
  | cons c cs ih =>
    intro x hx
    rcases List.mem_cons.mp hx with h | h
    · subst h
      rcases download_file_seen_or_fail net x.url x.folder x.source st with hm | hf
      · exact Or.inl (run_downloads_seen_mono net cs _ hm)
      · exact Or.inr hf
    · exact ih _ x h

theorem run_downloads_quiet (net : String → NetResult) (cands : List Cand)
    (st : PState)
    (hinv : ∀ c ∈ cands, c.url ∈ st.seen_urls ∨ fetchFailsB (net c.url) = true) :
    (run_downloads net cands st).pdf_index = st.pdf_index ∧
      (run_downloads net cands st).new_downloads = st.new_downloads := by
  induction cands generalizing st with
  | nil => exact ⟨rfl, rfl⟩
  | cons c cs ih =>
    have hc := hinv c (List.mem_cons_self c cs)
    have hq := download_file_quiet net c.url c.folder c.source st hc
    have hinv' : ∀ x ∈ cs,
        x.url ∈ (download_file net c.url c.folder c.source st).seen_urls ∨
          fetchFailsB (net x.url) = true := by
      intro x hx
      rcases hinv x (List.mem_cons_of_mem c hx) with hm | hf
      · exact Or.inl (download_file_seen_mono net c.url c.folder c.source st hm)
      · exact Or.inr hf
    have hrest := ih _ hinv'
    exact ⟨hrest.1.trans hq.1, hrest.2.trans hq.2⟩

/-!
Membership characterization for `find_pdf_links`.
-/

theorem mem_pdfStep (join : String → String → String) (base_url : String)
    (require_diabetes_word : Bool) (acc : Finset String) (a : Anchor) (u : String) :
    u ∈ pdfStep join base_url require_diabetes_word acc a ↔
      (anchorKept require_diabetes_word a ∧ u = join base_url a.href) ∨ u ∈ acc := by
  cases require_diabetes_word <;>
    by_cases h1 : pyIn "diabet" (pyLower a.href) = true <;>
    by_cases h2 : pyIn "diabet" (pyLower a.text) = true <;>
    by_cases h3 : pyIn ".pdf" (pyLower a.href) = true <;>
    simp [pdfStep, anchorKept, h1, h2, h3, Finset.mem_insert]

theorem mem_foldl_pdfStep (join : String → String → String) (base_url : String)
    (require_diabetes_word : Bool) (anchors : List Anchor) (acc : Finset String)
    (u : String) :
    u ∈ anchors.foldl (pdfStep join base_url require_diabetes_word) acc ↔
      u ∈ acc ∨ ∃ a, a ∈ anchors ∧ anchorKept require_diabetes_word a ∧
        u = join base_url a.href := by
  induction anchors generalizing acc with
  | nil => simp
  | cons a tl ih =>
    rw [List.foldl_cons, ih, mem_pdfStep]
    constructor
    · rintro ((⟨hk, hu⟩ | h) | ⟨b, hb, hkb, hub⟩)
      · exact Or.inr ⟨a, List.mem_cons_self a tl, hk, hu⟩
      · exact Or.inl h
      · exact Or.inr ⟨b, List.mem_cons_of_mem a hb, hkb, hub⟩
    · rintro (h | ⟨b, hb, hkb, hub⟩)
      · exact Or.inl (Or.inr h)
      · rcases List.mem_cons.mp hb with h | h
        · subst h
          exact Or.inl (Or.inl ⟨hkb, hub⟩)
        · exact Or.inr ⟨b, h, hkb, hub⟩

theorem mem_find_pdf_links (join : String → String → String) (base_url : String)
    (require_diabetes_word : Bool) (anchors : List Anchor) (u : String) :
    u ∈ find_pdf_links (some anchors) base_url require_diabetes_word join ↔
      ∃ a, a ∈ anchors ∧ pyIn ".pdf" (pyLower a.href) = true ∧
        (require_diabetes_word = true →
          (pyIn "diabet" (pyLower a.href) = true ∨
            pyIn "diabet" (pyLower a.text) = true)) ∧
        u = join base_url a.href := by
  show u ∈ anchors.foldl (pdfStep join base_url require_diabetes_word) ∅ ↔ _
  rw [mem_foldl_pdfStep]
  simp [anchorKept, and_assoc]

/-- A list that starts with a given prefix still does after appending. -/
theorem listStartsWith_append_of (p q : List Char)
    (h : listStartsWith p q = true) (r : List Char) :
    listStartsWith p (q ++ r) = true := by
  induction p generalizing q with
  | nil => simp [listStartsWith]
  | cons c cs ih =>
    cases q with
    | nil => simp [listStartsWith] at h
    | cons d ds =>
      simp [listStartsWith] at h ⊢
      exact ⟨h.1, ih ds h.2⟩

/-- Looking up the just-written path succeeds. -/
theorem fileExists_fsWrite_self (files : List (String × String))
    (p c : String) : fileExists (fsWrite files p c) p = true := by
  simp [fileExists, fsWrite, List.lookup]

/-!
The claims.
-/

/-- C1 counterexample: even for a URL already in the seen set,
`download_file` changes the filesystem — `ensure_dir` runs before the
seen-URL check and creates the target folder when it is missing — so the
call is not free of filesystem change as the claim states. -/
theorem claim_C1_counterexample :
    "https://x.org/docs/report.pdf" ∈ seenOneState.seen_urls ∧
    (download_file netFail404 "https://x.org/docs/report.pdf" "guidelines/ADA"
        "ADA" seenOneState).dirs ≠ seenOneState.dirs := by
  constructor
  · exact Finset.mem_singleton_self _
  · rw [download_file_skip_seen netFail404 _ "guidelines/ADA" "ADA" seenOneState
      (Finset.mem_singleton_self _)]
    show insert "guidelines/ADA" (∅ : Finset String) ≠ ∅
    simp

/-- C1 (amended): for every URL already in the seen set, `download_file`
only logs the skip and ensures the target folder exists; it performs no
network fetch and no file write, and the seen set, the in-run download
list and the index are unchanged. -/
theorem claim_C1_skip_known_url (net : String → NetResult)
    (url folder source : String) (st : PState) (h : url ∈ st.seen_urls) :
    download_file net url folder source st =
      { st with dirs := insert folder st.dirs,
                log := st.log ++ ["[SKIP] Already known URL: " ++ url] } :=
  download_file_skip_seen net url folder source st h

/-- Witness for C1 at a concrete seen URL. -/
theorem claim_C1_skip_known_url_witness :
    "https://x.org/docs/report.pdf" ∈ seenOneState.seen_urls ∧
    download_file netFail404 "https://x.org/docs/report.pdf" "guidelines/ADA"
        "ADA" seenOneState =
      { seenOneState with
        dirs := insert "guidelines/ADA" seenOneState.dirs,
        log := seenOneState.log ++
          ["[SKIP] Already known URL: " ++ "https://x.org/docs/report.pdf"] } :=
  ⟨Finset.mem_singleton_self _,
   claim_C1_skip_known_url netFail404 "https://x.org/docs/report.pdf"
     "guidelines/ADA" "ADA" seenOneState (Finset.mem_singleton_self _)⟩

/-- C2 counterexample: with a non-empty download list, the sender account
and credential set, but the recipient address absent from the
environment, the code still attempts the send — the recipient defaults to
the sender account — contradicting the claim that the absence of any one
of the three configuration values prevents the send. -/
theorem claim_C2_counterexample :
    (⟨some "user@example.com", some "pw", none⟩ : EmailEnv).alert_email_to
        = none ∧
    send_email_if_new ⟨some "user@example.com", some "pw", none⟩
        [⟨"ADA", "report.pdf", "https://x.org/docs/report.pdf"⟩] =
      EmailOutcome.sendAttempt "user@example.com" "user@example.com" :=
  ⟨rfl, rfl⟩

/-- C2 (amended): the notification step attempts to send only when the
in-run download list is non-empty (an empty list means no attempt
regardless of configured credentials); it requires the sender account and
sender credential from the environment, while the recipient address
defaults to the sender account when absent; the send is attempted exactly
when the list is non-empty and all three resolved values are non-empty,
and otherwise the step returns without sending (it never raises). -/
theorem claim_C2_notification_gating (env : EmailEnv)
    (nd : List DownloadRecord) :
    (send_email_if_new env nd = EmailOutcome.noNewFiles ↔ nd = []) ∧
    ((∃ u r, send_email_if_new env nd = EmailOutcome.sendAttempt u r) ↔
      (nd ≠ [] ∧ pyTruthy env.gmail_user = true ∧
        pyTruthy env.gmail_app_password = true ∧
        pyTruthy (envGetD env.alert_email_to env.gmail_user) = true)) := by
  cases nd with
  | nil => simp [send_email_if_new]
  | cons r rs =>
    by_cases h1 : pyTruthy env.gmail_user = true <;>
      by_cases h2 : pyTruthy env.gmail_app_password = true <;>
      by_cases h3 : pyTruthy (envGetD env.alert_email_to env.gmail_user) = true <;>
      simp [send_email_if_new, h1, h2, h3]

/-- C3: for a URL that is unseen, whose computed local file does not
exist, and whose fetch fails (non-200 status or transport error),
`download_file` leaves the seen set, the index, the in-run download list
and the files unchanged; the URL is fetched (and so will be retried next
run) and the failure is logged. -/
theorem claim_C3_fetch_failure_frame (net : String → NetResult)
    (url folder source : String) (st : PState)
    (h1 : url ∉ st.seen_urls)
    (h2 : fileExists st.files (os_path_join folder (safe_filename url)) = false)
    (h3 : fetchFailsB (net url) = true) :
    (download_file net url folder source st).seen_urls = st.seen_urls ∧
    (download_file net url folder source st).pdf_index = st.pdf_index ∧
    (download_file net url folder source st).new_downloads = st.new_downloads ∧
    (download_file net url folder source st).files = st.files ∧
    (download_file net url folder source st).fetched = st.fetched ++ [url] ∧
    (download_file net url folder source st).log =
      st.log ++ ["[DOWNLOAD] " ++ url, failMsg (net url) url] := by
  rw [download_file_fail net url folder source st h1 h2 h3]
  exact ⟨rfl, rfl, rfl, rfl, rfl, rfl⟩

/-- Witness for C3 at a concrete URL against an all-404 network. -/
theorem claim_C3_fetch_failure_frame_witness :
    ("https://x.org/docs/report.pdf" ∉ emptyState.seen_urls ∧
      fileExists emptyState.files
        (os_path_join "guidelines/WHO"
          (safe_filename "https://x.org/docs/report.pdf")) = false ∧
      fetchFailsB (netFail404 "https://x.org/docs/report.pdf") = true) ∧
    (download_file netFail404 "https://x.org/docs/report.pdf" "guidelines/WHO"
        "WHO" emptyState).seen_urls = emptyState.seen_urls ∧
    (download_file netFail404 "https://x.org/docs/report.pdf" "guidelines/WHO"
        "WHO" emptyState).pdf_index = emptyState.pdf_index :=
  ⟨⟨by decide, by decide, by decide⟩,
   (claim_C3_fetch_failure_frame netFail404 "https://x.org/docs/report.pdf"
      "guidelines/WHO" "WHO" emptyState (by decide) (by decide) (by decide)).1,
   (claim_C3_fetch_failure_frame netFail404 "https://x.org/docs/report.pdf"
      "guidelines/WHO" "WHO" emptyState (by decide) (by decide) (by decide)).2.1⟩

/-- C4 counterexample: for a URL whose path ends in a slash, the last
path segment is empty and the code falls back to `"file.pdf"`, while the
claim's rule — append `".pdf"` to the (empty) stripped last segment —
yields `".pdf"`; so the computed filename is not always what the claim
states. -/
theorem claim_C4_counterexample :
    safe_filename "https://x.org/docs/" = "file.pdf" ∧
    safe_filename_spec "https://x.org/docs/" = ".pdf" ∧
    safe_filename "https://x.org/docs/" ≠
      safe_filename_spec "https://x.org/docs/" :=
  ⟨by decide, by decide, by decide⟩

/-- C4 (amended): whenever the last segment of the URL's path is
non-empty, the computed filename follows the claim's rule (last path
segment, stripped of any query string, `".pdf"` appended unless the name
already ends in `".pdf"` case-insensitively, with no re-casing); when the
last segment is empty the filename falls back to `"file.pdf"`.  In
particular the filename for `https://x.org/docs/report?v=2` is
`report.pdf` and for `https://x.org/docs/report.PDF` is `report.PDF`. -/
theorem claim_C4_filename_derivation (url : String) :
    (lastPathSegment url ≠ "" → safe_filename url = safe_filename_spec url) ∧
    (lastPathSegment url = "" → safe_filename url = "file.pdf") ∧
    safe_filename "https://x.org/docs/report?v=2" = "report.pdf" ∧
    safe_filename "https://x.org/docs/report.PDF" = "report.PDF" := by
  refine ⟨?_, ?_, by decide, by decide⟩
  · intro h
    unfold lastPathSegment at h
    simp only [safe_filename, safe_filename_spec]
    rw [if_neg h]
  · intro h
    unfold lastPathSegment at h
    simp only [safe_filename]
    rw [if_pos h]
    decide

/-- Witness for C4 exercising both the non-empty-segment rule and the
empty-segment fallback. -/
theorem claim_C4_filename_derivation_witness :
    (lastPathSegment "https://x.org/docs/report?v=2" ≠ "" ∧
      safe_filename "https://x.org/docs/report?v=2" =
        safe_filename_spec "https://x.org/docs/report?v=2") ∧
    (lastPathSegment "https://x.org/" = "" ∧
      safe_filename "https://x.org/" = "file.pdf") :=
  ⟨⟨by decide,
    (claim_C4_filename_derivation "https://x.org/docs/report?v=2").1 (by decide)⟩,
   ⟨by decide,
    (claim_C4_filename_derivation "https://x.org/").2.1 (by decide)⟩⟩

/-- C5: link extraction over a parsed page returns a deduplicated set
holding exactly the resolutions (against the base URL) of the hrefs of
those anchors whose href contains `".pdf"` case-insensitively and — when
the keyword flag is set — whose href or visible text contains the stem
`"diabet"` case-insensitively; with the flag off no topical filter
applies; a failed page yields the empty set; the claim's two concrete
examples behave as stated. -/
theorem claim_C5_link_extraction :
    (∀ (join : String → String → String) (base_url : String)
        (anchors : List Anchor) (require_diabetes_word : Bool) (u : String),
      u ∈ find_pdf_links (some anchors) base_url require_diabetes_word join ↔
        ∃ a, a ∈ anchors ∧ pyIn ".pdf" (pyLower a.href) = true ∧
          (require_diabetes_word = true →
            (pyIn "diabet" (pyLower a.href) = true ∨
              pyIn "diabet" (pyLower a.text) = true)) ∧
          u = join base_url a.href) ∧
    (∀ (join : String → String → String) (base_url : String)
        (require_diabetes_word : Bool),
      find_pdf_links none base_url require_diabetes_word join = ∅) ∧
    (∀ (join : String → String → String) (base_url : String),
      join base_url "/files/guide.pdf" ∈
        find_pdf_links
          (some [⟨"/files/guide.pdf", "Living with Diabetes"⟩])
          base_url true join) ∧
    (∀ (join : String → String → String) (base_url : String),
      find_pdf_links (some [⟨"/files/guide.pdf", "Annual Report"⟩])
        base_url true join = ∅) := by
  refine ⟨fun join base_url anchors require_diabetes_word u =>
    mem_find_pdf_links join base_url require_diabetes_word anchors u,
    fun _ _ _ => rfl, ?_, ?_⟩
  · intro join base_url
    exact (mem_find_pdf_links join base_url true _ _).mpr
      ⟨⟨"/files/guide.pdf", "Living with Diabetes"⟩,
       List.mem_singleton_self _, by decide,
       fun _ => Or.inr (by decide), rfl⟩
  · intro join base_url
    rfl

/-- C6: for an unseen URL whose computed local file already exists,
`download_file` marks the URL seen, logs, ensures the folder, and does
nothing else: no network fetch, no file overwrite, no index row, no
in-run download record. -/
theorem claim_C6_adopt_existing_file (net : String → NetResult)
    (url folder source : String) (st : PState)
    (h1 : url ∉ st.seen_urls)
    (h2 : fileExists st.files (os_path_join folder (safe_filename url)) = true) :
    download_file net url folder source st =
      { st with dirs := insert folder st.dirs,
                seen_urls := insert url st.seen_urls,
                log := st.log ++
                  ["[SKIP] File exists but URL not tracked, marking as seen: " ++
                    os_path_join folder (safe_filename url)] } :=
  download_file_adopt net url folder source st h1 h2

/-- Witness for C6: a pre-existing `report.pdf` is adopted for an unseen
URL that maps onto it. -/
theorem claim_C6_adopt_existing_file_witness :
    ("https://x.org/docs/report.pdf" ∉ fileState.seen_urls ∧
      fileExists fileState.files
        (os_path_join "guidelines/ADA"
          (safe_filename "https://x.org/docs/report.pdf")) = true) ∧
    download_file netOk200 "https://x.org/docs/report.pdf" "guidelines/ADA"
        "ADA" fileState =
      { fileState with
        dirs := insert "guidelines/ADA" fileState.dirs,
        seen_urls := insert "https://x.org/docs/report.pdf" fileState.seen_urls,
        log := fileState.log ++
          ["[SKIP] File exists but URL not tracked, marking as seen: " ++
            os_path_join "guidelines/ADA"
              (safe_filename "https://x.org/docs/report.pdf")] } :=
  ⟨⟨by decide, by decide⟩,
   claim_C6_adopt_existing_file netOk200 "https://x.org/docs/report.pdf"
     "guidelines/ADA" "ADA" fileState (by decide) (by decide)⟩

/-- C7: the seen set only grows — each engine invocation and each whole
download run only extends it — and across two consecutive process runs,
with the seen set persisted at the end of the first run and reloaded by
the second (the save/load round trip of `save_seen_urls` /
`load_seen_urls`), its size after the second run is at least its size
after the first. -/
theorem claim_C7_seen_set_monotone :
    (∀ (net : String → NetResult) (url folder source : String) (st : PState),
      st.seen_urls ⊆ (download_file net url folder source st).seen_urls) ∧
    (∀ (net : String → NetResult) (cands : List Cand) (st : PState),
      st.seen_urls ⊆ (run_downloads net cands st).seen_urls) ∧
    (∀ (net1 net2 : String → NetResult) (cands1 cands2 : List Cand)
        (st0 : PState),
      (run_process net1 cands1 st0).seen_urls.card ≤
        (run_process net2 cands2
          (reload_state (run_process net1 cands1 st0))).seen_urls.card) := by
  refine ⟨download_file_seen_mono, run_downloads_seen_mono, ?_⟩
  intro net1 net2 cands1 cands2 st0
  have hround : (reload_state (run_process net1 cands1 st0)).seen_urls =
      (run_process net1 cands1 st0).seen_urls := by
    simp [reload_state, load_seen_urls, save_seen_urls, pySet,
      Finset.sort_toFinset]
  have hsub : (reload_state (run_process net1 cands1 st0)).seen_urls ⊆
      (run_process net2 cands2
        (reload_state (run_process net1 cands1 st0))).seen_urls :=
    run_downloads_seen_mono net2 cands2
      { reload_state (run_process net1 cands1 st0) with new_downloads := [] }
  rw [hround] at hsub
  exact Finset.card_le_card hsub

/-- C8: a second identical run — same candidate URLs, same network
behaviour — starting from the first run's final state produces an empty
in-run download list and leaves the index exactly as the first run left
it: every candidate is either already seen or fails again. -/
theorem claim_C8_second_run_idempotent (net : String → NetResult)
    (cands : List Cand) (st0 : PState) :
    (run_process net cands (run_process net cands st0)).new_downloads = [] ∧
    (run_process net cands (run_process net cands st0)).pdf_index =
      (run_process net cands st0).pdf_index := by
  have hq := run_downloads_quiet net cands
    { run_process net cands st0 with new_downloads := [] }
    (fun c hc => run_downloads_covers net cands
      { st0 with new_downloads := [] } c hc)
  exact ⟨hq.2, hq.1⟩

/-- C9 counterexample: two file conditions refute the claim.  When the
seen-state file is absent the loader logs `[INFO] No previous seen URL
file, starting fresh` — no warning.  And when the file holds valid JSON
that is not the documented array-of-URLs format — here the JSON object
`{"x": 1}` — `set(data)` succeeds on the object's keys, so the loader
returns the non-empty set `{"x"}` and logs `[INFO] Loaded 1 previously
seen URLs`: neither an empty set nor a warning. -/
theorem claim_C9_counterexample :
    ((load_seen_urls SeenFile.absent).1 = ∅ ∧
      (load_seen_urls SeenFile.absent).2.any isWarnMsg = false) ∧
    ((load_seen_urls (SeenFile.content (JsonData.obj ["x"]))).1 = {"x"} ∧
      (load_seen_urls (SeenFile.content (JsonData.obj ["x"]))).1 ≠ ∅ ∧
      (load_seen_urls (SeenFile.content (JsonData.obj ["x"]))).2 =
        ["[INFO] Loaded 1 previously seen URLs"] ∧
      (load_seen_urls (SeenFile.content (JsonData.obj ["x"]))).2.any isWarnMsg
        = false) :=
  ⟨⟨rfl, by decide⟩, ⟨by decide, by decide, rfl, by decide⟩⟩

/-- C9 (amended): loading the seen state never raises — the loader is a
total function covering every file condition.  An absent file yields the
empty set and an informational log line.  A read or JSON-parse failure
(unreadable file, invalid JSON text), or a payload `set` cannot consume
(number, boolean, null), yields the empty set and a warning.  A payload
`set` can consume yields that set with an informational message even
when the file was not an array of URLs: an array yields its elements, an
object its keys, a string its characters.  The run always proceeds, at
worst re-fetching previously-downloaded URLs once. -/
theorem claim_C9_load_degrades (err : String) (urls keys : List String)
    (s : String) :
    (load_seen_urls SeenFile.absent).1 = ∅ ∧
    (load_seen_urls SeenFile.absent).2 =
      ["[INFO] No previous seen URL file, starting fresh"] ∧
    (load_seen_urls (SeenFile.failure err)).1 = ∅ ∧
    (load_seen_urls (SeenFile.failure err)).2.any isWarnMsg = true ∧
    (load_seen_urls (SeenFile.content (JsonData.scalar err))).1 = ∅ ∧
    (load_seen_urls (SeenFile.content (JsonData.scalar err))).2.any isWarnMsg
      = true ∧
    (load_seen_urls (SeenFile.content (JsonData.arr urls))).1 = urls.toFinset ∧
    (load_seen_urls (SeenFile.content (JsonData.arr urls))).2 =
      ["[INFO] Loaded " ++ toString urls.toFinset.card ++
        " previously seen URLs"] ∧
    (load_seen_urls (SeenFile.content (JsonData.obj keys))).1 = keys.toFinset ∧
    (load_seen_urls (SeenFile.content (JsonData.obj keys))).2 =
      ["[INFO] Loaded " ++ toString keys.toFinset.card ++
        " previously seen URLs"] ∧
    (load_seen_urls (SeenFile.content (JsonData.str s))).1 =
      (s.data.map (fun c => String.mk [c])).toFinset := by
  have hwarn : (["[WARN] Failed to load seen URLs: " ++ err].any isWarnMsg)
      = true := by
    simp only [List.any_cons, List.any_nil, Bool.or_false, isWarnMsg]
    rw [String.data_append]
    exact listStartsWith_append_of _ _ (by decide) _
  exact ⟨rfl, rfl, rfl, hwarn, rfl, hwarn, rfl, rfl, rfl, rfl, rfl⟩

/-- C10: when two distinct URLs map to the same computed filename in the
same folder, after the first is downloaded successfully a subsequent
`download_file` of the second merely marks it seen and logs the adoption:
no fetch of the second URL, no file written, no index row and no in-run
record — its content is never stored under any name. -/
theorem claim_C10_filename_collision_adoption
    (net1 net2 : String → NetResult)
    (u1 u2 folder source1 source2 content : String) (st0 : PState)
    (hne : u1 ≠ u2)
    (hcol : safe_filename u1 = safe_filename u2)
    (h1 : u1 ∉ st0.seen_urls) (h2 : u2 ∉ st0.seen_urls)
    (hfile : fileExists st0.files (os_path_join folder (safe_filename u1)) = false)
    (hnet : net1 u1 = NetResult.resp 200 content) :
    download_file net2 u2 folder source2 (download_file net1 u1 folder source1 st0) =
      { download_file net1 u1 folder source1 st0 with
        dirs := insert folder (download_file net1 u1 folder source1 st0).dirs,
        seen_urls := insert u2 (download_file net1 u1 folder source1 st0).seen_urls,
        log := (download_file net1 u1 folder source1 st0).log ++
          ["[SKIP] File exists but URL not tracked, marking as seen: " ++
            os_path_join folder (safe_filename u2)] } := by
  have hstep := download_file_success net1 u1 folder source1 st0 content h1 hfile hnet
  have h2' : u2 ∉ (download_file net1 u1 folder source1 st0).seen_urls := by
    rw [hstep]
    show u2 ∉ insert u1 st0.seen_urls
    rw [Finset.mem_insert]
    rintro (he | hm)
    · exact hne he.symm
    · exact h2 hm
  have hfile' : fileExists (download_file net1 u1 folder source1 st0).files
      (os_path_join folder (safe_filename u2)) = true := by
    rw [hstep, ← hcol]
    exact fileExists_fsWrite_self st0.files _ content
  exact download_file_adopt net2 u2 folder source2 _ h2' hfile'

/-- Witness for C10: two query-string variants of the same document URL
collide on `report.pdf`; the second invocation adopts the first's file. -/
theorem claim_C10_filename_collision_adoption_witness :
    ("https://x.org/docs/report?v=1" ≠ "https://x.org/docs/report?v=2" ∧
      safe_filename "https://x.org/docs/report?v=1" =
        safe_filename "https://x.org/docs/report?v=2" ∧
      "https://x.org/docs/report?v=1" ∉ emptyState.seen_urls ∧
      "https://x.org/docs/report?v=2" ∉ emptyState.seen_urls ∧
      fileExists emptyState.files
        (os_path_join "guidelines/WHO"
          (safe_filename "https://x.org/docs/report?v=1")) = false ∧
      netOk200 "https://x.org/docs/report?v=1" = NetResult.resp 200 "PDF-BYTES") ∧
    download_file netOk200 "https://x.org/docs/report?v=2" "guidelines/WHO" "WHO"
        (download_file netOk200 "https://x.org/docs/report?v=1" "guidelines/WHO"
          "WHO" emptyState) =
      { download_file netOk200 "https://x.org/docs/report?v=1" "guidelines/WHO"
          "WHO" emptyState with
        dirs := insert "guidelines/WHO"
          (download_file netOk200 "https://x.org/docs/report?v=1" "guidelines/WHO"
            "WHO" emptyState).dirs,
        seen_urls := insert "https://x.org/docs/report?v=2"
          (download_file netOk200 "https://x.org/docs/report?v=1" "guidelines/WHO"
            "WHO" emptyState).seen_urls,
        log := (download_file netOk200 "https://x.org/docs/report?v=1"
            "guidelines/WHO" "WHO" emptyState).log ++
          ["[SKIP] File exists but URL not tracked, marking as seen: " ++
            os_path_join "guidelines/WHO"
              (safe_filename "https://x.org/docs/report?v=2")] } :=
  ⟨⟨by decide, by decide, by decide, by decide, by decide, rfl⟩,
   claim_C10_filename_collision_adoption netOk200 netOk200
     "https://x.org/docs/report?v=1" "https://x.org/docs/report?v=2"
     "guidelines/WHO" "WHO" "WHO" "PDF-BYTES" emptyState
     (by decide) (by decide) (by decide) (by decide) (by decide) rfl⟩

end DiabetesAutoUpdate
